import Mathlib

/-
Shallow embedding of src/_tools/check_theme_quality.py, a theme-asset
quality linter.  The check engine (result model, check runner, suite
orchestrator) is embedded faithfully; terminal rendering (rich markup,
spinners, padding, path styling) is presentational only and is abstracted
to the semantically load-bearing content of each printed line, as the
specification directs (sections 2 and 6: the reporting sink is an abstract
"update status line / print indented message" component).  File subjects
are modelled as strings.
-/

namespace ThemeCheck

/-- Result model (source lines 20-37): a three-variant outcome value.
Success carries the subject file; Failure and Fix carry the subject file
and a human-readable reason. -/
inductive Result where
  | Success (file : String)
  | Failure (file : String) (reason : String)
  | Fix (file : String) (reason : String)
deriving DecidableEq, Repr

/-- The subject a Result pertains to (the file field of each variant). -/
def subjectOf : Result → String
  | .Success f => f
  | .Failure f _ => f
  | .Fix f _ => f

/-- Bool test: is the result a Success (mirrors type(result) is Success). -/
def isSuccessR : Result → Bool
  | .Success _ => true
  | _ => false

/-- Bool test: is the result a Fix (mirrors type(result) is Fix). -/
def isFixR : Result → Bool
  | .Fix _ _ => true
  | _ => false

/-- Bool test: is the result a Failure (mirrors type(result) is Failure). -/
def isFailureR : Result → Bool
  | .Failure _ _ => true
  | _ => false

/-- Payload of a Success, none otherwise. -/
def successPayload : Result → Option String
  | .Success f => some f
  | _ => none

/-- Payload of a Fix, none otherwise. -/
def fixPayload : Result → Option (String × String)
  | .Fix f r => some (f, r)
  | _ => none

/-- Payload of a Failure, none otherwise. -/
def failPayload : Result → Option (String × String)
  | .Failure f r => some (f, r)
  | _ => none

/-- Observable behavior of one invocation of a check, as seen by the
runner (source lines 80-91).  falsy: the call returns a falsy value such
as None, which the expression check() or [] turns into an empty iteration.
gen results fault: the call returns an iterable that yields the given
results in order and then either finishes normally (fault = false) or
raises an exception (fault = true).  A call that raises before yielding
anything is gen [] true. -/
inductive CheckInvocation where
  | falsy
  | gen (results : List Result) (fault : Bool)
deriving DecidableEq, Repr

/-- The results the runner manages to collect from an invocation. -/
def resultsOf : CheckInvocation → List Result
  | .falsy => []
  | .gen rs _ => rs

/-- Whether the invocation raised an exception during consumption. -/
def faultOf : CheckInvocation → Bool
  | .falsy => false
  | .gen _ f => f

/-- Classification of one check run, read off the final status line the
runner writes (source lines 95-102: ERROR / PASS / FIX / FAIL). -/
inductive Outcome where
  | Error
  | Pass
  | Fixed
  | Failed
deriving DecidableEq, Repr

/-- Everything observable from one _run_check call: the status-line
classification, whether the captured exception traceback was printed
(source lines 112-117), the itemized message lines printed below the
status line (source lines 119-132, content of each inform call with the
presentational arrow, padding and markup stripped), and the returned
boolean. -/
structure RunReport where
  outcome : Outcome
  tracebackPrinted : Bool
  messages : List String
  ret : Bool
deriving DecidableEq, Repr

/-- An inform line for a fix in the Fixed branch or a failure in the
Failed branch (source lines 126 and 132): path, colon, reason. -/
def informLine (p : String × String) : String :=
  p.1 ++ ": " ++ p.2

/-- An inform line for a fix in the Failed branch (source line 130):
path, a fixed marker, colon, reason. -/
def informFixedLine (p : String × String) : String :=
  p.1 ++ " (fixed): " ++ p.2

/-- The bucketing loop of the runner (source lines 83-89): split the
consumed results, in emission order, into successes, fixes and failures. -/
def bucketize : List Result → List String × List (String × String) × List (String × String)
  | [] => ([], [], [])
  | r :: rs =>
    let rest := bucketize rs
    match r with
    | Result.Success f => (f :: rest.1, rest.2.1, rest.2.2)
    | Result.Fix f reason => (rest.1, (f, reason) :: rest.2.1, rest.2.2)
    | Result.Failure f reason => (rest.1, rest.2.1, (f, reason) :: rest.2.2)

/-- The check runner _run_check (source lines 68-133).  Consumes one
invocation, tallies results by kind, classifies the outcome for the
status line (lines 95-102), then prints the post-processing report and
returns the boolean success signal (lines 112-133). -/
def _run_check (inv : CheckInvocation) : RunReport :=
  let results := resultsOf inv
  let raised_exception := faultOf inv
  let bk := bucketize results
  let fixes := bk.2.1
  let failures := bk.2.2
  let total := bk.1.length + fixes.length + failures.length
  let outcome :=
    if raised_exception = true ∨ total = 0 then Outcome.Error
    else if fixes = [] ∧ failures = [] then Outcome.Pass
    else if failures = [] then Outcome.Fixed
    else Outcome.Failed
  if raised_exception = true then
    ⟨outcome, true, [], false⟩
  else if total = 0 then
    ⟨outcome, false, ["No files was checked, this must be an error."], false⟩
  else if fixes = [] ∧ failures = [] then
    ⟨outcome, false, [], true⟩
  else if failures = [] then
    ⟨outcome, false, fixes.map informLine, true⟩
  else
    ⟨outcome, false, fixes.map informFixedLine ++ failures.map informLine, false⟩

/-- The running tally of the orchestrator (source lines 636-639):
succeeded_count starts at 0 and each runner boolean is added as 0 or 1. -/
def succeeded_count (runs : List CheckInvocation) : Nat :=
  runs.foldl (fun acc inv => acc + ((_run_check inv).ret).toNat) 0

/-- The suite orchestrator verify_theme_quality (source lines 618-652),
abstracted over the list of check behaviors: runs every check, then
prints a FAILURE summary with the fraction passed and returns false when
the tally differs from the number of checks, and otherwise prints a
SUCCESS summary and returns true.  The second component is the summary
line with the rich markup stripped. -/
def verify_theme_quality (runs : List CheckInvocation) : Bool × String :=
  let n := succeeded_count runs
  if n ≠ runs.length then
    (false, "Final result: FAILURE (" ++ toString n ++ " out of "
      ++ toString runs.length ++ " checks passed).")
  else
    (true, "Final result: SUCCESS (" ++ toString n ++ " out of "
      ++ toString runs.length ++ " checks passed).")

/-- The process exit contract (source lines 655-657): sys.exit(1) when
verify_theme_quality returns false, normal exit 0 otherwise. -/
def main_exit_code (runs : List CheckInvocation) : Nat :=
  if (verify_theme_quality runs).1 then 0 else 1

/-- Per-file body of check_svg_formatting (source lines 138-200).  The
lxml canonicalization pipeline (parse, strip sodipodi and inkscape
elements, attributes and style properties, clean namespaces, indent,
serialize with declaration, normalize the trailing newline) is an
external library collaborator, abstracted as the argument canon: an
error value models a parse failure with its message, an ok value is the
canonical serialization.  Returns the emitted Result together with the
file content after the run (the source rewrites the file in place when
the canonical form differs, lines 197-198). -/
def svg_format_one (canon : String → Except String String)
    (path : String) (content : String) : Result × String :=
  match canon content with
  | Except.error e => (Result.Failure path ("Could not parse SVG file: " ++ e), content)
  | Except.ok formatted =>
    if formatted = content then
      (Result.Success path, content)
    else
      (Result.Fix path "Formatted SVG file", formatted)

/-- check_svg_formatting (source lines 136-200) over an explicit file
store: a list of path and content pairs standing for the files that
_find_files yields.  Returns the emitted results in order and the file
store after the run. -/
def check_svg_formatting (canon : String → Except String String) :
    List (String × String) → List Result × List (String × String)
  | [] => ([], [])
  | (path, content) :: rest =>
    let one := svg_format_one canon path content
    let more := check_svg_formatting canon rest
    (one.1 :: more.1, (path, one.2) :: more.2)

/-- Path of the theme language file (source lines 434 and 475). -/
def theme_lang_file : String := "_inc/ui-components/theme-lang.xml"

/-- Path of the collections metadata file (source line 530). -/
def collections_file : String := "collections.info"

/-- Path of a system metadata file with the given stem (the files that
_iter_files metadata yields). -/
def metadata_path (stem : String) : String :=
  "_inc/metadata/" ++ stem ++ ".xml"

/-- Python str.strip with no arguments: remove leading and trailing
whitespace.  Defined structurally over the character list so that it
evaluates on concrete inputs. -/
def py_strip (s : String) : String :=
  ⟨((s.data.dropWhile Char.isWhitespace).reverse.dropWhile Char.isWhitespace).reverse⟩

/-- Python str.lower, defined structurally over the character list. -/
def py_lower (s : String) : String :=
  ⟨s.data.map Char.toLower⟩

/-- Python str.startswith, defined structurally over the character
lists. -/
def py_startswith (s p : String) : Bool :=
  p.data.isPrefixOf s.data

/-- Adding an element to a Python set, modelled as a duplicate-free list
in insertion order (CPython set iteration order is unspecified; no claim
here depends on it). -/
def set_add (s : List String) (x : String) : List String :=
  if x ∈ s then s else s ++ [x]

/-- One variables element of the theme language file: its optional lang
attribute and the tag names of its children in document order. -/
structure VariablesElement where
  lang : Option String
  childTags : List String
deriving DecidableEq, Repr

/-- get_child_tags (source lines 438-442): the set of child tag names. -/
def get_child_tags (el : VariablesElement) : List String :=
  el.childTags.foldl set_add []

/-- The inner loop of check_all_variables_fully_translated (source lines
457-461): walk the required tags, removing each from the language tag
set; a missing tag yields a Failure attributed to the theme language
file.  Returns the failures in order and the leftover tag set. -/
def remove_required : List String → List String → String → List Result × List String
  | [], lang_tags, _ => ([], lang_tags)
  | t :: ts, lang_tags, lang =>
    if t ∈ lang_tags then
      remove_required ts (lang_tags.erase t) lang
    else
      let more := remove_required ts lang_tags lang
      (Result.Failure theme_lang_file ("Missing <" ++ t ++ "> in language: " ++ lang) :: more.1,
        more.2)

/-- The per-element body of check_all_variables_fully_translated (source
lines 447-467): elements without a lang attribute are skipped; otherwise
the required tags are removed from the element tag set, and any leftover
tags produce one aggregated Failure. -/
def per_language_results (required : List String) (v : VariablesElement) : List Result :=
  match v.lang with
  | none => []
  | some lg =>
    let lang := py_lower (py_strip lg)
    let removed := remove_required required (get_child_tags v) lang
    removed.1 ++
      (if removed.2.isEmpty then []
       else [Result.Failure theme_lang_file
         ("Unexpected tags in language " ++ lang ++ ": " ++ String.intercalate ", " removed.2)])

/-- check_all_variables_fully_translated (source lines 431-469) over the
parsed variables elements of the theme language file in document order.
An empty list means tree.find variables returns None, on which
get_child_tags raises, a fault: modelled as none.  Otherwise the required
tags are the child tags of the first variables element, every element
with a lang attribute is processed, and a final Success for the theme
language file is always yielded (source line 469). -/
def check_all_variables_fully_translated (blocks : List VariablesElement) :
    Option (List Result) :=
  match blocks with
  | [] => none
  | first :: _ =>
    let required := get_child_tags first
    some ((blocks.map (per_language_results required)).flatten
      ++ [Result.Success theme_lang_file])

/-- One parsed metadata file for check_metadata_is_complete: its path
stem and, when the primary variables tag exists, the list of child
elements as tag name and optional text. -/
structure MetadataFile where
  stem : String
  variablesTag : Option (List (String × Option String))
deriving DecidableEq, Repr

/-- variables.find tag (source line 418): text of the first child with
the given tag, none when no such child exists. -/
def find_tag (children : List (String × Option String)) (tag : String) :
    Option (Option String) :=
  (children.find? (fun c => c.1 == tag)).map Prod.snd

/-- The required metadata variable tags (source lines 399-407). -/
def metadata_tags : List String :=
  ["systemName", "systemDescription", "systemManufacturer", "systemReleaseYear",
   "systemHardwareType", "systemCoverSize", "systemCartSize"]

/-- check_metadata_is_complete (source lines 396-428).  Note the
for-else on lines 417-428: the tag loop contains no break, only continue
statements, so its else clause runs on every file with a variables tag
and the trailing Success is emitted even after Failures. -/
def check_metadata_is_complete (files : List MetadataFile) : List Result :=
  (files.map (fun f =>
    match f.variablesTag with
    | none => [Result.Failure (metadata_path f.stem) "Missing primary <variables> tag"]
    | some children =>
      (metadata_tags.filterMap (fun tag =>
        match find_tag children tag with
        | none => some (Result.Failure (metadata_path f.stem)
            ("Missing <" ++ tag ++ "> tag in primary variables"))
        | some none => some (Result.Failure (metadata_path f.stem)
            ("Empty <" ++ tag ++ "> tag in primary variables"))
        | some (some txt) =>
          if py_strip txt = "" then
            some (Result.Failure (metadata_path f.stem)
              ("Empty <" ++ tag ++ "> tag in primary variables"))
          else none))
      ++ [Result.Success (metadata_path f.stem)])).flatten

/-- The hardware type markers that make a system a collection (source
line 526). -/
def collection_markers : List String :=
  ["$\x7bi18n.custom-collection\x7d", "$\x7bi18n.auto-collection\x7d"]

/-- One parsed metadata file for check_no_missing_collections: its path
stem and the text of its systemHardwareType variable. -/
structure SystemMeta where
  stem : String
  systemHardwareType : String
deriving DecidableEq, Repr

/-- The first loop of check_no_missing_collections (source lines
520-527): the metadata files whose hardware type is a collection
marker. -/
def system_collections (metas : List SystemMeta) : List SystemMeta :=
  metas.filter (fun m => decide (m.systemHardwareType ∈ collection_markers))

/-- Reading collections.info (source lines 529-535): skip comment and
blank lines, strip the rest, collect into a set. -/
def read_theme_collections (lines : List String) : List String :=
  lines.foldl
    (fun acc line =>
      if py_startswith line "#" || py_strip line = "" then acc
      else set_add acc (py_strip line))
    []

/-- The matching loop of check_no_missing_collections (source lines
537-543): for each collection system in order, remove its stem from the
set, yielding Success on a hit and a Failure on a miss.  Returns the
results in order and the leftover set. -/
def collect_loop : List SystemMeta → List String → List Result × List String
  | [], tc => ([], tc)
  | s :: rest, tc =>
    if s.stem ∈ tc then
      let more := collect_loop rest (tc.erase s.stem)
      (Result.Success (metadata_path s.stem) :: more.1, more.2)
    else
      let more := collect_loop rest tc
      (Result.Failure (metadata_path s.stem) "Collection not referenced" :: more.1, more.2)

/-- check_no_missing_collections (source lines 517-549) over the parsed
metadata files and the raw lines of collections.info.  After the
matching loop, a nonempty leftover set produces one single aggregated
Failure attributed to collections.info (source lines 545-549). -/
def check_no_missing_collections (metas : List SystemMeta) (infoLines : List String) :
    List Result :=
  let pair := collect_loop (system_collections metas) (read_theme_collections infoLines)
  pair.1 ++
    (if pair.2.isEmpty then []
     else [Result.Failure collections_file
       ("Collections file has extra entries: " ++ String.intercalate ", " pair.2)])

/-- The entries of the collections file with no matching collection
system.  This definition follows the words of the specification property
for the membership boundary (one Failure per unmatched entry on each
side) and is used to compare the code against that property. -/
def extra_entries (metas : List SystemMeta) (infoLines : List String) : List String :=
  (read_theme_collections infoLines).filter
    (fun e => decide (e ∉ (system_collections metas).map SystemMeta.stem))

/-! Helper lemmas about the runner and the orchestrator tally. -/

/-- The bucketing loop splits the results into the three order-preserving
projections. -/
theorem bucketize_eq (rs : List Result) :
    bucketize rs =
      (rs.filterMap successPayload, rs.filterMap fixPayload, rs.filterMap failPayload) := by
  induction rs with
  | nil => rfl
  | cons r rs ih =>
    cases r <;>
      simp [bucketize, ih, successPayload, fixPayload, failPayload, List.filterMap_cons]

/-- Characterization of a faultless run in terms of the three projections. -/
theorem run_check_gen_false (rs : List Result) :
    _run_check (CheckInvocation.gen rs false) =
      (if (rs.filterMap successPayload).length + (rs.filterMap fixPayload).length
            + (rs.filterMap failPayload).length = 0 then
        ⟨Outcome.Error, false, ["No files was checked, this must be an error."], false⟩
      else if rs.filterMap fixPayload = [] ∧ rs.filterMap failPayload = [] then
        ⟨Outcome.Pass, false, [], true⟩
      else if rs.filterMap failPayload = [] then
        ⟨Outcome.Fixed, false, (rs.filterMap fixPayload).map informLine, true⟩
      else
        ⟨Outcome.Failed, false,
          (rs.filterMap fixPayload).map informFixedLine
            ++ (rs.filterMap failPayload).map informLine, false⟩) := by
  simp [_run_check, resultsOf, faultOf, bucketize_eq]
  split_ifs <;> simp_all

/-- The orchestrator tally as a fold from an arbitrary start. -/
theorem succeeded_count_go (l : List CheckInvocation) : ∀ n : Nat,
    l.foldl (fun acc inv => acc + ((_run_check inv).ret).toNat) n
      = n + l.foldl (fun acc inv => acc + ((_run_check inv).ret).toNat) 0 := by
  induction l with
  | nil => intro n; simp
  | cons a l ih =>
    intro n
    rw [List.foldl_cons, List.foldl_cons,
      ih (n + ((_run_check a).ret).toNat), ih (0 + ((_run_check a).ret).toNat)]
    omega

/-- The orchestrator tally distributes over list append: every check in
the suite contributes its own boolean, independently of the others. -/
theorem succeeded_count_append (l1 l2 : List CheckInvocation) :
    succeeded_count (l1 ++ l2) = succeeded_count l1 + succeeded_count l2 := by
  unfold succeeded_count
  rw [List.foldl_append, succeeded_count_go]

/-- The orchestrator tally on a cons. -/
theorem succeeded_count_cons (a : CheckInvocation) (l : List CheckInvocation) :
    succeeded_count (a :: l) = ((_run_check a).ret).toNat + succeeded_count l := by
  unfold succeeded_count
  rw [List.foldl_cons, succeeded_count_go]
  omega

/-- The tally counts the true runner booleans. -/
theorem succeeded_count_eq_count (runs : List CheckInvocation) :
    succeeded_count runs = (runs.map (fun inv => (_run_check inv).ret)).count true := by
  induction runs with
  | nil => rfl
  | cons a l ih =>
    rw [succeeded_count_cons, ih]
    simp [List.count_cons]
    cases (_run_check a).ret
    · simp
    · simp
      omega

/-! Theorems for the claims about the runner. -/

/-- Claim C10: a check call returning a falsy value such as None is
turned into an empty iteration by the runner, which then classifies the
run as Error through the zero-result rule, prints the zero-result
message rather than a traceback, and returns false. -/
theorem falsy_check_zero_result_error :
    _run_check CheckInvocation.falsy =
      ⟨Outcome.Error, false, ["No files was checked, this must be an error."], false⟩ := rfl

/-- Claim C2 (amended): a check whose result sequence is empty and which
raises no fault is classified Error, the runner prints the message
"No files was checked, this must be an error." and returns false. -/
theorem empty_run_classified_error (inv : CheckInvocation)
    (hres : resultsOf inv = []) (hfault : faultOf inv = false) :
    _run_check inv =
      ⟨Outcome.Error, false, ["No files was checked, this must be an error."], false⟩ := by
  simp [_run_check, hres, hfault, bucketize]

/-- Witness for the amended claim C2 at the concrete empty faultless
invocation. -/
theorem empty_run_classified_error_witness :
    _run_check (CheckInvocation.gen [] false) =
      ⟨Outcome.Error, false, ["No files was checked, this must be an error."], false⟩ :=
  empty_run_classified_error (CheckInvocation.gen [] false) rfl rfl

/-- Counterexample to claim C2 as stated: on an empty faultless run the
runner does classify Error and return false, but the printed message is
"No files was checked, this must be an error." (source line 120), not
the claimed "No files were checked, this must be an error.". -/
theorem empty_run_message_counterexample :
    (_run_check (CheckInvocation.gen [] false)).outcome = Outcome.Error
    ∧ (_run_check (CheckInvocation.gen [] false)).ret = false
    ∧ (_run_check (CheckInvocation.gen [] false)).messages
        ≠ ["No files were checked, this must be an error."] := by
  refine ⟨rfl, rfl, ?_⟩
  decide

/-- Claim C3: a run that raises a fault, after any number of yielded
results, is classified Error, prints the traceback and none of the
already collected result lines, returns false, and does not keep the
remaining checks of the suite from contributing their own outcomes to
the orchestrator tally. -/
theorem fault_run_error_and_suite_continues (rs : List Result)
    (pre post : List CheckInvocation) :
    _run_check (CheckInvocation.gen rs true) = ⟨Outcome.Error, true, [], false⟩
    ∧ succeeded_count (pre ++ CheckInvocation.gen rs true :: post)
        = succeeded_count pre + succeeded_count post := by
  have h1 : _run_check (CheckInvocation.gen rs true) = ⟨Outcome.Error, true, [], false⟩ := by
    simp [_run_check, resultsOf, faultOf]
  refine ⟨h1, ?_⟩
  rw [succeeded_count_append, succeeded_count_cons, h1]
  simp [Bool.toNat]

/-- Claim C4: a faultless run with at least one result, all of them
Success, is classified Pass, prints no itemized messages, and returns
true. -/
theorem all_success_run_passes (rs : List Result) (hne : rs ≠ [])
    (hall : rs.all isSuccessR = true) :
    _run_check (CheckInvocation.gen rs false) = ⟨Outcome.Pass, false, [], true⟩ := by
  have hfx : rs.filterMap fixPayload = [] := by
    rw [List.filterMap_eq_nil_iff]
    intro a ha
    have h := List.all_eq_true.mp hall a ha
    cases a <;> simp_all [isSuccessR, fixPayload]
  have hfl : rs.filterMap failPayload = [] := by
    rw [List.filterMap_eq_nil_iff]
    intro a ha
    have h := List.all_eq_true.mp hall a ha
    cases a <;> simp_all [isSuccessR, failPayload]
  have hs : rs.filterMap successPayload ≠ [] := by
    obtain ⟨a, l, rfl⟩ := List.exists_cons_of_ne_nil hne
    have h := List.all_eq_true.mp hall a (by simp)
    cases a <;> simp_all [isSuccessR, successPayload, List.filterMap_cons]
  have hlen : (rs.filterMap successPayload).length ≠ 0 := by
    simpa [List.length_eq_zero] using hs
  rw [run_check_gen_false,
    if_neg (by simp only [hfx, hfl, List.length_nil]; omega), if_pos ⟨hfx, hfl⟩]

/-- Witness for claim C4 at a concrete single-Success run. -/
theorem all_success_run_passes_witness :
    _run_check (CheckInvocation.gen [Result.Success "a"] false) =
      ⟨Outcome.Pass, false, [], true⟩ :=
  all_success_run_passes [Result.Success "a"] (by decide) (by decide)

/-- Claim C5: a faultless run with at least one Fix and no Failure is
classified Fixed, returns true, and prints one path-colon-reason line
per Fix, in the order the Fix results were emitted (the order-preserving
projection of the Fix payloads). -/
theorem fixes_only_run_fixed (rs : List Result)
    (hfix : rs.any isFixR = true) (hnofail : rs.any isFailureR = false) :
    _run_check (CheckInvocation.gen rs false) =
      ⟨Outcome.Fixed, false, (rs.filterMap fixPayload).map informLine, true⟩ := by
  have hfl : rs.filterMap failPayload = [] := by
    rw [List.filterMap_eq_nil_iff]
    intro a ha
    rw [List.any_eq_false] at hnofail
    have h := hnofail a ha
    cases a <;> simp_all [isFailureR, failPayload]
  have hfx : rs.filterMap fixPayload ≠ [] := by
    obtain ⟨a, ha, hp⟩ := List.any_eq_true.mp hfix
    intro hcon
    have := List.filterMap_eq_nil_iff.mp hcon a ha
    cases a <;> simp_all [isFixR, fixPayload]
  have hlen : (rs.filterMap fixPayload).length ≠ 0 := by
    simpa [List.length_eq_zero] using hfx
  rw [run_check_gen_false,
    if_neg (by simp only [hfl, List.length_nil]; omega),
    if_neg (by intro h; exact hfx h.1), if_pos hfl]

/-- Witness for claim C5 at a concrete single-Fix run. -/
theorem fixes_only_run_fixed_witness :
    _run_check (CheckInvocation.gen [Result.Fix "a" "r"] false) =
      ⟨Outcome.Fixed, false, ["a: r"], true⟩ :=
  fixes_only_run_fixed [Result.Fix "a" "r"] (by decide) (by decide)

/-- Claim C6: a faultless run with at least one Failure is classified
Failed, returns false, and its report prints the fix lines, each with
the fixed marker, before all the failure lines, both in emission
order. -/
theorem failure_run_failed (rs : List Result) (hfail : rs.any isFailureR = true) :
    _run_check (CheckInvocation.gen rs false) =
      ⟨Outcome.Failed, false,
        (rs.filterMap fixPayload).map informFixedLine
          ++ (rs.filterMap failPayload).map informLine, false⟩ := by
  have hfl : rs.filterMap failPayload ≠ [] := by
    obtain ⟨a, ha, hp⟩ := List.any_eq_true.mp hfail
    intro hcon
    have := List.filterMap_eq_nil_iff.mp hcon a ha
    cases a <;> simp_all [isFailureR, failPayload]
  have hlen : (rs.filterMap failPayload).length ≠ 0 := by
    simpa [List.length_eq_zero] using hfl
  rw [run_check_gen_false, if_neg (by omega),
    if_neg (by intro h; exact hfl h.2), if_neg hfl]

/-- Witness for claim C6 at a concrete run with one Fix and one Failure. -/
theorem failure_run_failed_witness :
    _run_check (CheckInvocation.gen [Result.Fix "a" "r", Result.Failure "b" "s"] false) =
      ⟨Outcome.Failed, false, ["a (fixed): r", "b: s"], false⟩ :=
  failure_run_failed [Result.Fix "a" "r", Result.Failure "b" "s"] (by decide)

/-- Claim C1: for every list of checks, the orchestrator returns true
exactly when the runner returned true for every check; the printed
summary is the SUCCESS line on full success and otherwise the FAILURE
line with the fraction of checks passed; and the process exit code is 0
exactly when the orchestrator returns true. -/
theorem suite_verdict_summary_exit (runs : List CheckInvocation) :
    (verify_theme_quality runs).1 = runs.all (fun inv => (_run_check inv).ret)
    ∧ (verify_theme_quality runs).2 =
        (if (verify_theme_quality runs).1 then
          "Final result: SUCCESS (" ++ toString (succeeded_count runs) ++ " out of "
            ++ toString runs.length ++ " checks passed)."
        else
          "Final result: FAILURE (" ++ toString (succeeded_count runs) ++ " out of "
            ++ toString runs.length ++ " checks passed).")
    ∧ (main_exit_code runs == 0) = (verify_theme_quality runs).1 := by
  have hall : (succeeded_count runs = runs.length)
      ↔ (runs.all (fun inv => (_run_check inv).ret) = true) := by
    rw [succeeded_count_eq_count]
    constructor
    · intro h
      rw [List.all_eq_true]
      intro inv hinv
      have hlen : ((runs.map (fun inv => (_run_check inv).ret)).count true)
          = (runs.map (fun inv => (_run_check inv).ret)).length := by
        rw [h, List.length_map]
      have := List.count_eq_length.mp hlen ((_run_check inv).ret)
        (List.mem_map_of_mem _ hinv)
      exact this.symm
    · intro h
      rw [List.all_eq_true] at h
      have : ((runs.map (fun inv => (_run_check inv).ret)).count true)
          = (runs.map (fun inv => (_run_check inv).ret)).length := by
        rw [List.count_eq_length]
        intro b hb
        obtain ⟨inv, hinv, rfl⟩ := List.mem_map.mp hb
        exact (h inv hinv).symm
      rw [this, List.length_map]
  by_cases h : succeeded_count runs = runs.length
  · have hv : verify_theme_quality runs =
        (true, "Final result: SUCCESS (" ++ toString (succeeded_count runs) ++ " out of "
          ++ toString runs.length ++ " checks passed).") := by
      simp [verify_theme_quality, h]
    refine ⟨?_, ?_, ?_⟩
    · rw [hv]; exact (hall.mp h).symm
    · rw [hv]; simp
    · rw [hv]; simp [main_exit_code, hv]
  · have hv : verify_theme_quality runs =
        (false, "Final result: FAILURE (" ++ toString (succeeded_count runs) ++ " out of "
          ++ toString runs.length ++ " checks passed).") := by
      simp [verify_theme_quality, h]
    refine ⟨?_, ?_, ?_⟩
    · rw [hv]
      by_contra hc
      have : runs.all (fun inv => (_run_check inv).ret) = true := by
        cases hr : runs.all (fun inv => (_run_check inv).ret)
        · rw [hr] at hc; simp at hc
        · rfl
      exact h (hall.mpr this)
    · rw [hv]; simp
    · rw [hv]; simp [main_exit_code, hv]

/-! Lemmas and theorems about check_all_variables_fully_translated. -/

/-- Every Failure produced by the removal loop is attributed to the
theme language file. -/
theorem remove_required_subjects (req : List String) : ∀ (tags : List String) (lang : String)
    (r : Result), r ∈ (remove_required req tags lang).1 → subjectOf r = theme_lang_file := by
  induction req with
  | nil => intro tags lang r hr; simp [remove_required] at hr
  | cons t ts ih =>
    intro tags lang r hr
    by_cases h : t ∈ tags
    · rw [remove_required, if_pos h] at hr
      exact ih _ _ r hr
    · rw [remove_required, if_neg h] at hr
      rcases List.mem_cons.mp hr with h1 | h2
      · rw [h1]; rfl
      · exact ih _ _ r h2

/-- Every Result produced for one variables element is attributed to the
theme language file. -/
theorem per_language_subjects (required : List String) (v : VariablesElement) (r : Result)
    (hr : r ∈ per_language_results required v) : subjectOf r = theme_lang_file := by
  unfold per_language_results at hr
  cases hl : v.lang with
  | none => rw [hl] at hr; simp at hr
  | some lg =>
    rw [hl] at hr
    simp only at hr
    rcases List.mem_append.mp hr with h1 | h2
    · exact remove_required_subjects _ _ _ r h1
    · split_ifs at h2 with hemp
      · simp at h2
      · rcases List.mem_cons.mp h2 with h3 | h3
        · rw [h3]; rfl
        · simp at h3

/-- Claim C7 (amended): the invariant of at most one Result per subject
does not hold of every check; in particular every Result that
check_all_variables_fully_translated emits carries the same subject, the
theme language file, and its result sequence always ends with a Success
for that file, so any run of it that reports a Failure yields two or
more Results with the same subject. -/
theorem variables_check_single_subject (blocks : List VariablesElement) (rs : List Result)
    (h : check_all_variables_fully_translated blocks = some rs) :
    rs.all (fun r => subjectOf r == theme_lang_file) = true
    ∧ rs.getLast? = some (Result.Success theme_lang_file) := by
  cases blocks with
  | nil => simp [check_all_variables_fully_translated] at h
  | cons first rest =>
    simp only [check_all_variables_fully_translated, Option.some.injEq] at h
    subst h
    constructor
    · rw [List.all_eq_true]
      intro r hr
      rcases List.mem_append.mp hr with h1 | h2
      · obtain ⟨l, hl, hrl⟩ := List.mem_flatten.mp h1
        obtain ⟨b, _, rfl⟩ := List.mem_map.mp hl
        have := per_language_subjects _ b r hrl
        simp [this]
      · simp only [List.mem_singleton] at h2
        rw [h2]
        simp [subjectOf]
    · exact List.getLast?_concat _

/-- Witness for the amended claim C7 at a one-element theme language
file: the single emitted Result carries the theme language file subject
and is the final Success. -/
theorem variables_check_single_subject_witness :
    ([Result.Success theme_lang_file].all (fun r => subjectOf r == theme_lang_file) = true)
    ∧ ([Result.Success theme_lang_file].getLast? = some (Result.Success theme_lang_file)) :=
  variables_check_single_subject [⟨none, ["a"]⟩] [Result.Success theme_lang_file] rfl

/-- Counterexample to claim C7 as stated: on a theme language file whose
reference variables element has one tag and whose en element has none,
check_all_variables_fully_translated yields a Failure and then a Success
both carrying the same subject, the theme language file, so a single run
of a check can yield two Results with the same subject. -/
theorem one_result_per_subject_counterexample :
    check_all_variables_fully_translated [⟨none, ["a"]⟩, ⟨some "en", []⟩] =
      some [Result.Failure theme_lang_file "Missing <a> in language: en",
        Result.Success theme_lang_file]
    ∧ ¬ List.Pairwise (fun a b => subjectOf a ≠ subjectOf b)
        [Result.Failure theme_lang_file "Missing <a> in language: en",
          Result.Success theme_lang_file] := by
  constructor
  · decide
  · intro hp
    have := (List.pairwise_cons.mp hp).1 (Result.Success theme_lang_file) (by simp)
    exact this rfl

/-! Lemmas and theorems about check_no_missing_collections. -/

/-- Adding to a modelled set preserves freedom from duplicates. -/
theorem set_add_nodup {s : List String} (h : s.Nodup) (x : String) :
    (set_add s x).Nodup := by
  unfold set_add
  split_ifs with hx
  · exact h
  · exact List.Nodup.append h (List.nodup_singleton x)
      (by intro a ha hb; simp only [List.mem_singleton] at hb; subst hb; exact hx ha)

/-- The set read from collections.info has no duplicates. -/
theorem read_theme_collections_nodup (lines : List String) :
    (read_theme_collections lines).Nodup := by
  unfold read_theme_collections
  have aux : ∀ (ls : List String) (acc : List String), acc.Nodup →
      (ls.foldl
        (fun acc line =>
          if py_startswith line "#" || py_strip line = "" then acc
          else set_add acc (py_strip line)) acc).Nodup := by
    intro ls
    induction ls with
    | nil => intro acc h; simpa using h
    | cons a ls ih =>
      intro acc h
      rw [List.foldl_cons]
      apply ih
      split_ifs with hc
      · exact h
      · exact set_add_nodup h _
  exact aux lines [] List.nodup_nil

/-- The matching loop of check_no_missing_collections, characterized
without sequential state: when the collection system stems are free of
duplicates and so is the entry set, each system yields Success exactly
when its stem is among the initial entries, and the leftover set is the
entries matching no system stem. -/
theorem collect_loop_spec (sys : List SystemMeta) : ∀ tc : List String,
    (sys.map SystemMeta.stem).Nodup → tc.Nodup →
    collect_loop sys tc =
      (sys.map (fun s =>
        if s.stem ∈ tc then Result.Success (metadata_path s.stem)
        else Result.Failure (metadata_path s.stem) "Collection not referenced"),
       tc.filter (fun e => decide (e ∉ sys.map SystemMeta.stem))) := by
  induction sys with
  | nil =>
    intro tc _ _
    simp [collect_loop]
  | cons s rest ih =>
    intro tc hnd htc
    rw [List.map_cons, List.nodup_cons] at hnd
    have hstem : s.stem ∉ rest.map SystemMeta.stem := hnd.1
    have hrest : (rest.map SystemMeta.stem).Nodup := hnd.2
    have hne : ∀ r ∈ rest, SystemMeta.stem r ≠ s.stem := by
      intro r hr hcon
      exact hstem (hcon ▸ List.mem_map_of_mem SystemMeta.stem hr)
    by_cases h : s.stem ∈ tc
    · rw [collect_loop, if_pos h, ih (tc.erase s.stem) hrest (htc.erase _)]
      refine Prod.ext ?_ ?_
      · rw [List.map_cons, if_pos h]
        simp only [List.cons.injEq, true_and]
        apply List.map_congr_left
        intro r hr
        simp only [List.mem_erase_of_ne (hne r hr)]
      · rw [htc.erase_eq_filter s.stem, List.filter_filter]
        apply List.filter_congr
        intro e he
        by_cases h1 : e = s.stem <;> by_cases h2 : e ∈ rest.map SystemMeta.stem <;>
          simp [h1, h2, List.mem_cons]
    · rw [collect_loop, if_neg h, ih tc hrest htc]
      refine Prod.ext ?_ ?_
      · rw [List.map_cons, if_neg h]
      · apply List.filter_congr
        intro e he
        have h1 : e ≠ s.stem := by
          intro hcon
          exact h (hcon ▸ he)
        by_cases h2 : e ∈ rest.map SystemMeta.stem <;> simp [h1, h2, List.mem_cons]

/-- Claim C8 (amended): when the collection system stems are free of
duplicates, check_no_missing_collections emits one result per collection
system in order, a Success when its stem is among the entries of the
collections file and a Failure otherwise, and then, when some entries
match no system, one single aggregated Failure attributed to the
collections file listing all of those entries, rather than one Failure
per unmatched entry. -/
theorem collections_check_characterization (metas : List SystemMeta)
    (infoLines : List String)
    (hnd : ((system_collections metas).map SystemMeta.stem).Nodup) :
    check_no_missing_collections metas infoLines =
      ((system_collections metas).map (fun s =>
        if s.stem ∈ read_theme_collections infoLines then
          Result.Success (metadata_path s.stem)
        else Result.Failure (metadata_path s.stem) "Collection not referenced"))
      ++ (if extra_entries metas infoLines = [] then []
          else [Result.Failure collections_file
            ("Collections file has extra entries: "
              ++ String.intercalate ", " (extra_entries metas infoLines))]) := by
  unfold check_no_missing_collections
  rw [collect_loop_spec _ _ hnd (read_theme_collections_nodup infoLines)]
  simp only [extra_entries, List.isEmpty_iff]

/-- Witness for the amended claim C8 at a concrete input with one
matched system, one unmatched system and two unmatched entries. -/
theorem collections_check_characterization_witness :
    check_no_missing_collections
      [⟨"a", "$\x7bi18n.custom-collection\x7d"⟩,
        ⟨"x", "$\x7bi18n.auto-collection\x7d"⟩, ⟨"n", "console"⟩]
      ["a", "# comment", "", "y", "z"] =
      [Result.Success (metadata_path "a"),
        Result.Failure (metadata_path "x") "Collection not referenced",
        Result.Failure collections_file "Collections file has extra entries: y, z"] := by
  have h := collections_check_characterization
    [⟨"a", "$\x7bi18n.custom-collection\x7d"⟩,
      ⟨"x", "$\x7bi18n.auto-collection\x7d"⟩, ⟨"n", "console"⟩]
    ["a", "# comment", "", "y", "z"] (by decide)
  exact h.trans (by decide)

/-- Counterexample to claim C8 as stated: with systems a (matched) and x
(unmatched) and collections file entries a, y, z, the two entries y and
z with no matching system give rise to one single Failure on the
collections file, not one Failure per unmatched entry. -/
theorem collections_aggregate_failure_counterexample :
    check_no_missing_collections
      [⟨"a", "$\x7bi18n.custom-collection\x7d"⟩,
        ⟨"x", "$\x7bi18n.auto-collection\x7d"⟩, ⟨"n", "console"⟩]
      ["a", "# comment", "", "y", "z"] =
      [Result.Success (metadata_path "a"),
        Result.Failure (metadata_path "x") "Collection not referenced",
        Result.Failure collections_file "Collections file has extra entries: y, z"]
    ∧ (extra_entries
        [⟨"a", "$\x7bi18n.custom-collection\x7d"⟩,
          ⟨"x", "$\x7bi18n.auto-collection\x7d"⟩, ⟨"n", "console"⟩]
        ["a", "# comment", "", "y", "z"]).length = 2
    ∧ (check_no_missing_collections
        [⟨"a", "$\x7bi18n.custom-collection\x7d"⟩,
          ⟨"x", "$\x7bi18n.auto-collection\x7d"⟩, ⟨"n", "console"⟩]
        ["a", "# comment", "", "y", "z"]).countP
          (fun r => isFailureR r && (subjectOf r == collections_file))
        ≠ (extra_entries
            [⟨"a", "$\x7bi18n.custom-collection\x7d"⟩,
              ⟨"x", "$\x7bi18n.auto-collection\x7d"⟩, ⟨"n", "console"⟩]
            ["a", "# comment", "", "y", "z"]).length := by
  refine ⟨by decide, by decide, by decide⟩

/-! Theorem about check_svg_formatting. -/

/-- Claim C9: for any canonicalization pipeline that reproduces its own
output byte for byte (re-canonicalizing a canonical serialization yields
it unchanged, the property the specification asserts of the lxml
pipeline), and any parseable file whose content differs from its
canonical form, the first run of check_svg_formatting yields Fix and
rewrites the file to the canonical form, and an immediately following
second run on the rewritten content yields Success and leaves the file
unchanged. -/
theorem svg_formatting_idempotent_convergence
    (canon : String → Except String String)
    (hidem : ∀ c f, canon c = Except.ok f → canon f = Except.ok f)
    (path content f : String)
    (hparse : canon content = Except.ok f) (hnc : f ≠ content) :
    check_svg_formatting canon [(path, content)] =
      ([Result.Fix path "Formatted SVG file"], [(path, f)])
    ∧ check_svg_formatting canon [(path, f)] =
      ([Result.Success path], [(path, f)]) := by
  constructor
  · simp [check_svg_formatting, svg_format_one, hparse, hnc]
  · have hf : canon f = Except.ok f := hidem content f hparse
    simp [check_svg_formatting, svg_format_one, hf]

/-- Witness for claim C9 at a concrete idempotent canonicalizer (the
constant one returning the empty canonical form) and a non-canonical
file. -/
theorem svg_formatting_idempotent_convergence_witness :
    check_svg_formatting (fun _ => Except.ok "") [("p", "x")] =
      ([Result.Fix "p" "Formatted SVG file"], [("p", "")])
    ∧ check_svg_formatting (fun _ => Except.ok "") [("p", "")] =
      ([Result.Success "p"], [("p", "")]) :=
  svg_formatting_idempotent_convergence (fun _ => Except.ok "")
    (by intro c f h; injection h with h2; rw [← h2]) "p" "x" "" rfl (by decide)

end ThemeCheck
